import Mathlib

/-!
Verification of the AU census data pipeline (tasks/au/data.py): the column
definition loader with denominator resolution (Columns.columns / Columns.requires)
and the table materializer (XCP.populate_general / XCP.populate_mb).

Python strings are modelled as Lean String; the helper functions below mirror
the exact Python string operations used by the source (str.startswith, str.lower,
str.replace, str.split, str.strip, substring membership, str(list) formatting).
All recursion is structural so every definition evaluates by kernel reduction.
-/

namespace AU

/-- Whitespace characters stripped by Python str.strip(). -/
def isPySpace (c : Char) : Bool :=
  c == ' ' || c == '\t' || c == '\n' || c == '\r'

/-- Does the character list start with the given pattern list? -/
def startsWithL : List Char → List Char → Bool
  | _, [] => true
  | [], _ :: _ => false
  | a :: as, b :: bs => a == b && startsWithL as bs

/-- Python s.startswith(p). -/
def pyStartsWith (s p : String) : Bool :=
  startsWithL s.data p.data

/-- Python s.endswith(p). -/
def pyEndsWith (s p : String) : Bool :=
  startsWithL s.data.reverse p.data.reverse

/-- Does the haystack contain the needle as a contiguous segment? -/
def containsSegL : List Char → List Char → Bool
  | [], needle => startsWithL [] needle
  | c :: rest, needle => startsWithL (c :: rest) needle || containsSegL rest needle

/-- Python substring membership: needle in hay (for str operands). -/
def pyInStr (needle hay : String) : Bool :=
  containsSegL hay.data needle.data

/-- Python s.lower() (ASCII, which is all the source uses). -/
def pyLower (s : String) : String :=
  ⟨s.data.map Char.toLower⟩

/-- Fuel-driven worker for pyReplace; fuel bounds the number of scanned heads. -/
def replaceLAux (pat rep : List Char) : Nat → List Char → List Char
  | 0, hay => hay
  | _ + 1, [] => []
  | fuel + 1, c :: rest =>
    if startsWithL (c :: rest) pat then
      rep ++ replaceLAux pat rep fuel ((c :: rest).drop pat.length)
    else
      c :: replaceLAux pat rep fuel rest

/-- Python s.replace(pat, rep): replace every occurrence, left to right.
The source only ever calls this with a non-empty pattern, so the empty-pattern
guard (returning the string unchanged) is never exercised. -/
def pyReplace (s pat rep : String) : String :=
  if pat.data = [] then s
  else ⟨replaceLAux pat.data rep.data s.data.length s.data⟩

/-- Worker for pySplitPipe: split a character list on the pipe character. -/
def splitPipeAux : List Char → List Char → List (List Char)
  | [], acc => [acc.reverse]
  | c :: rest, acc =>
    if c == '|' then acc.reverse :: splitPipeAux rest [] else splitPipeAux rest (c :: acc)

/-- Python s.split(sep) with a one-character separator, as used for the
pipe-delimited denominator and subsection lists. -/
def pySplitPipe (s : String) : List String :=
  (splitPipeAux s.data []).map (fun l => ⟨l⟩)

/-- Python s.strip(): drop leading and trailing whitespace. -/
def pyStrip (s : String) : String :=
  ⟨((s.data.dropWhile isPySpace).reverse.dropWhile isPySpace).reverse⟩

/-- Join a list of strings with a separator (str.join). -/
def joinSep (sep : String) : List String → String
  | [] => ""
  | [s] => s
  | s :: rest => s ++ sep ++ joinSep sep rest

/-- Worker for pyStrList: comma-separated single-quoted items, Python repr style. -/
def pyStrListInner : List String → String
  | [] => ""
  | [s] => "'" ++ s ++ "'"
  | s :: rest => "'" ++ s ++ "', " ++ pyStrListInner rest

/-- Python str(list-of-str): how a list of state ids renders inside a message. -/
def pyStrList (l : List String) : String :=
  "[" ++ pyStrListInner l ++ "]"

/-- The hay contains the needle as a contiguous substring (Prop form). -/
def strContains (hay needle : String) : Prop :=
  ∃ a b : List Char, hay.data = a ++ needle.data ++ b

/-! ## Association lists with Python dict semantics

Python dicts keep insertion order; assigning to an existing key overwrites the
value in place. Both the metadata column map (an OrderedDict) and the per-row
targets dict rely on this. -/

/-- Python dict assignment d[k] = v: overwrite in place if the key exists,
otherwise append at the end. -/
def dictInsert {K V : Type} [DecidableEq K] (d : List (K × V)) (k : K) (v : V) :
    List (K × V) :=
  if d.any (fun p => decide (p.1 = k)) then
    d.map (fun p => if p.1 = k then (k, v) else p)
  else
    d ++ [(k, v)]

/-- Python dict lookup d[k] / membership test, as an option. -/
def lookupAssoc {K V : Type} [DecidableEq K] (d : List (K × V)) (k : K) : Option V :=
  match d with
  | [] => none
  | p :: rest => if p.1 = k then some p.2 else lookupAssoc rest k

/-- Python dict.update(other): assign every entry of other in order. -/
def dictUpdate {K V : Type} [DecidableEq K] (d other : List (K × V)) : List (K × V) :=
  other.foldl (fun acc p => dictInsert acc p.1 p.2) d

/-! ## Column Definition Loader (Columns.columns, tasks/au/data.py:238-320) -/

/-- A target reference stored in a descriptor's targets dict: either a
descriptor obtained from a prerequisite group (column_reqs[denom_id].get(session))
or a descriptor resolved earlier in the same table's row scan (cols[denom_id]). -/
inductive ColRef where
  | req (id : String)
  | own (id : String)
deriving DecidableEq

/-- The OBSColumn descriptor as built by Columns.columns. The targets dict key
is an Option ColRef because column_reqs[denom_id].get(session) can return null,
which targets_dict.pop(None, None) later removes. -/
structure OBSColumn where
  id : String
  type : String
  name : String
  description : String
  weight : Nat
  aggregate : String
  tags : List String
  targets : List (Option ColRef × String)
deriving DecidableEq

/-- One raw metadata CSV row, fields at the positions Columns.columns reads
(line[0], line[1], line[2], line[3], line[4], line[5], line[6], line[8], line[10]). -/
structure MetaRow where
  line0 : String
  col_id : String
  col_name : String
  denominators : String
  tablename : String
  col_unit : String
  col_subsections : String
  agg : String
  tabledesc : String

/-- Static inputs of one Columns.columns run: the profile's leading character,
the requested table id, the merged prerequisite descriptors (column_reqs, with
none modelling a null .get(session) result), and the tag registries
(external collaborators, modelled as total maps). -/
structure LoaderCfg where
  profilechar : String
  tablename : String
  column_reqs : List (String × Option String)
  source : String
  license : String
  country : String
  unittags : String → String
  subsectiontags : String → String

/-- column_reqs construction (data.py:249-252): merge every requirement entry
whose key starts with the profile's leading character. -/
def buildColumnReqs (profilechar : String)
    (input_ : List (String × List (String × Option String))) :
    List (String × Option String) :=
  input_.foldl
    (fun acc kv => if pyStartsWith kv.1 profilechar then dictUpdate acc kv.2 else acc) []

/-- col_agg (data.py:274-277): line[8] only for the profile's 02 table, else None. -/
def colAggOf (profilechar : String) (row : MetaRow) : Option String :=
  if row.tablename = profilechar ++ "02" then some row.agg else none

/-- reltype (data.py:288-290): universe when col_agg is median or average,
denominator otherwise (Python: col_agg in [median, average]). -/
def reltypeOf (col_agg : Option String) : String :=
  if col_agg = some "median" ∨ col_agg = some "average" then "universe" else "denominator"

/-- aggregate=col_agg or sum (data.py:306): Python or treats None and the
empty string as falsy. -/
def aggDefault (col_agg : Option String) : String :=
  match col_agg with
  | none => "sum"
  | some s => if s = "" then "sum" else s

/-- targets_dict.pop(None, None) (data.py:296): remove the null key if present.
dictInsert never duplicates keys, so filtering is exactly the single pop. -/
def popNone (d : List (Option ColRef × String)) : List (Option ColRef × String) :=
  d.filter (fun t => t.1.isSome)

/-- One iteration of the denominator loop (data.py:283-295): strip the token,
skip it if empty, otherwise look it up first in column_reqs and only then in
the columns resolved earlier in this table's scan; a token absent from both
raises a KeyError (Python dict subscript cols[denom_id]). -/
def resolveOne (col_agg : Option String) (column_reqs : List (String × Option String))
    (cols : List (String × OBSColumn)) (acc : List (Option ColRef × String))
    (denom_raw : String) : Except String (List (Option ColRef × String)) :=
  let denom_id := pyStrip denom_raw
  if denom_id = "" then .ok acc
  else
    let reltype := reltypeOf col_agg
    match lookupAssoc column_reqs denom_id with
    | some v => .ok (dictInsert acc (Option.map ColRef.req v) reltype)
    | none =>
      match lookupAssoc cols denom_id with
      | some _ => .ok (dictInsert acc (some (ColRef.own denom_id)) reltype)
      | none => .error ("KeyError: " ++ denom_id)

/-- The denominator loop over the split token list (data.py:283-295). -/
def resolveDenoms (col_agg : Option String) (column_reqs : List (String × Option String))
    (cols : List (String × OBSColumn)) :
    List String → List (Option ColRef × String) →
    Except String (List (Option ColRef × String))
  | [], acc => .ok acc
  | d :: rest, acc =>
    match resolveOne col_agg column_reqs cols acc d with
    | .error e => .error e
    | .ok acc' => resolveDenoms col_agg column_reqs cols rest acc'

/-- The OBSColumn constructed for one accepted row (data.py:298-318), including
the subsection tags appended after construction. popNone is applied to the raw
targets dict before storage, exactly as targets_dict.pop(None, None) runs before
the OBSColumn call. -/
def mkColumn (cfg : LoaderCfg) (row : MetaRow)
    (targets_dict : List (Option ColRef × String)) : OBSColumn :=
  { id := row.col_id
    type := "Numeric"
    name := row.col_name
    description := row.tabledesc
    weight := 5
    aggregate := aggDefault (colAggOf cfg.profilechar row)
    tags := [cfg.source, cfg.license, cfg.country, cfg.unittags row.col_unit] ++
      (pySplitPipe row.col_subsections).map (fun s => cfg.subsectiontags (pyStrip s))
    targets := popNone targets_dict }

/-- Processing of one CSV row by Columns.columns (data.py:260-318): the two
startswith filters, denominator resolution, and storage of the descriptor
under its column id. -/
def processRow (cfg : LoaderCfg) (cols : List (String × OBSColumn)) (row : MetaRow) :
    Except String (List (String × OBSColumn)) :=
  if ¬ pyStartsWith row.line0 cfg.profilechar then .ok cols
  else if ¬ pyStartsWith row.tablename cfg.tablename then .ok cols
  else
    match resolveDenoms (colAggOf cfg.profilechar row) cfg.column_reqs cols
        (pySplitPipe row.denominators) [] with
    | .error e => .error e
    | .ok targets_dict => .ok (dictInsert cols row.col_id (mkColumn cfg row targets_dict))

/-- The row scan from a given accumulated column map. -/
def columnsRunFrom (cfg : LoaderCfg) :
    List MetaRow → List (String × OBSColumn) → Except String (List (String × OBSColumn))
  | [], cols => .ok cols
  | row :: rest, cols =>
    match processRow cfg cols row with
    | .error e => .error e
    | .ok cols' => columnsRunFrom cfg rest cols'

/-- Columns.columns: scan all metadata rows starting from an empty OrderedDict. -/
def columnsRun (cfg : LoaderCfg) (rows : List MetaRow) :
    Except String (List (String × OBSColumn)) :=
  columnsRunFrom cfg rows []

/-! ## Static prerequisite declarations (Columns.requires, data.py:151-233) -/

/-- The regex B2[6-8] matched at the start of the table name (data.py:197-199). -/
def matchB26to28 (t : String) : Bool :=
  match t.data with
  | 'B' :: '2' :: c :: _ => decide ('6' ≤ c ∧ c ≤ '8')
  | _ => false

/-- The regex B3[1-6] matched at the start of the table name (data.py:201-203). -/
def matchB31to36 (t : String) : Bool :=
  match t.data with
  | 'B' :: '3' :: c :: _ => decide ('1' ≤ c ∧ c ≤ '6')
  | _ => false

/-- The table-group requirement keys declared by Columns.requires
(data.py:151-233), in declaration order with dict-overwrite semantics.
The five tag requirements (sections/subsections/units/source/license) are not
modelled here: their keys never start with a profile letter, so they never
enter column_reqs. Each value is the required table's name. -/
def requiresTables (t : String) : List (String × String) :=
  let d : List (String × String) := []
  let d := if t ≠ "B01" then dictInsert d "B01" "B01" else d
  let d := if t = "B02" then dictInsert (dictInsert d "B01" "B01") "B17B" "B17B" else d
  let d := if t = "B04A" then dictInsert d "B04B" "B04B" else d
  let d := if t = "B08A" then dictInsert d "B08B" "B08B" else d
  let d := if t = "B10A" then dictInsert (dictInsert d "B10B" "B10B") "B10C" "B10C" else d
  let d := if t = "B10B" then dictInsert d "B10C" "B10C" else d
  let d := if t = "B11A" then dictInsert d "B11B" "B11B" else d
  let d := if t = "B12A" then dictInsert d "B12B" "B12B" else d
  let d := if t = "B16A" then dictInsert d "B16B" "B16B" else d
  let d := if t = "B17A" then dictInsert d "B17B" "B17B" else d
  let d := if t = "B20A" then dictInsert d "B20B" "B20B" else d
  let d := if t = "B22A" then dictInsert d "B22B" "B22B" else d
  let d := if t = "B23A" then dictInsert d "B23B" "B23B" else d
  let d := if matchB26to28 t then dictInsert d "B25" "B25" else d
  let d := if matchB31to36 t then dictInsert d "B29" "B29" else d
  let d := if t = "B40A" then dictInsert d "B40B" "B40B" else d
  let d := if t = "B42A" then dictInsert d "B42B" "B42B" else d
  let d := if t = "B44A" then dictInsert d "B44B" "B44B" else d
  let d := if t = "B45A" then dictInsert d "B45B" "B45B" else d
  let d := if t = "B41A" then dictInsert (dictInsert d "B41B" "B41B") "B41C" "B41C" else d
  let d := if t = "B41B" then dictInsert d "B41C" "B41C" else d
  let d := if t = "B43A" then
    dictInsert (dictInsert (dictInsert d "B43B" "B43B") "B43C" "B43C") "B43D" "B43D" else d
  let d := if t = "B43B" then dictInsert (dictInsert d "B43C" "B43C") "B43D" "B43D" else d
  let d := if t = "B43C" then dictInsert d "B43D" "B43D" else d
  d

/-! ## Table Materializer: direct per-partition projection
(XCP.populate_general, data.py:407-456) -/

/-- The nine state partitions (data.py:25). -/
def STATES : List String :=
  ["NSW", "Vic", "Qld", "SA", "WA", "Tas", "NT", "ACT", "OT"]

/-- XCP._get_geoid (data.py:371-373): the geography-id source column name,
fixed for the 2011 epoch, resolution-and-year-qualified afterwards. -/
def getGeoid (year : Nat) (resolution : String) : String :=
  if year = 2011 then "region_id" else resolution ++ "_CODE_" ++ toString year

/-- The trailing-separator exception condition (data.py:420-432): the column
name ends in the median-rent pattern and the (resolution, state) pair is one of
the documented exceptions. The LGA and SLA lines are Python substring tests
(state.lower() in a plain string), the others are tuple membership. -/
def medianRentCond (resolution state colname : String) : Bool :=
  pyEndsWith colname "Median_rent_weekly_" &&
  ((resolution == "RA" && pyLower state != "aust") ||
   (resolution == "SA4" && ["vic", "wa", "ot"].contains (pyLower state)) ||
   (resolution == "SA3" && ["vic", "wa"].contains (pyLower state)) ||
   (resolution == "SA2" && ["vic", "wa", "nsw"].contains (pyLower state)) ||
   (resolution == "SA1" && ["vic", "wa", "qld", "nt", "sa", "nsw"].contains (pyLower state)) ||
   (resolution == "GCCSA" && ["vic", "wa", "ot"].contains (pyLower state)) ||
   (resolution == "LGA" && pyInStr (pyLower state) "wa") ||
   (resolution == "SLA" && pyInStr (pyLower state) "wa") ||
   (resolution == "SSC" && ["vic", "wa", "qld", "nt", "sa", "nsw"].contains (pyLower state)) ||
   (resolution == "POA" && ["wa", "qld", "nsw"].contains (pyLower state)) ||
   (resolution == "CED" && ["vic", "wa"].contains (pyLower state)) ||
   (resolution == "SED" && ["wa", "ot"].contains (pyLower state)))

/-- The trailing-separator substitution (data.py:419-433): applied exactly when
medianRentCond holds, otherwise the column name passes through unmodified. -/
def substMedianRent (resolution state colname : String) : String :=
  if medianRentCond resolution state colname then
    pyReplace colname "Median_rent_weekly_" "Median_rent_weekly"
  else colname

/-- One entry of in_colnames (data.py:417-438): substitute the trailing
separator first, then strip the table prefix and cast to the target's type. -/
def inColnameEntry (resolution state tablename colname coltype : String) : String :=
  "\"" ++ pyReplace (substMedianRent resolution state colname) (tablename ++ "_") ""
    ++ "\"::" ++ coltype

/-- The per-partition insert command over (column name, column type) pairs
(data.py:410-447): lower-cased output names, typed input projections with the
first entry overwritten by the quoted geography id. -/
def buildCmdNT (resolution tablename : String) (year : Nat)
    (output intable state : String) (nts : List (String × String)) : String :=
  let out_colnames := nts.map (fun p => pyLower p.1)
  let in_colnames := nts.map (fun p => inColnameEntry resolution state tablename p.1 p.2)
  let in_colnames :=
    match in_colnames with
    | [] => []
    | _ :: rest => ("\"" ++ getGeoid year resolution ++ "\"") :: rest
  "INSERT INTO " ++ output ++ " (\"" ++ joinSep "\", \"" out_colnames ++ "\") " ++
    "SELECT " ++ joinSep ", " in_colnames ++ " FROM " ++ intable ++ " "

/-- The insert command for one partition, from full column targets: only each
target's declared type is read (target.get(session).type, data.py:437). -/
def buildCmd (resolution tablename : String) (year : Nat)
    (output intable state : String) (cts : List (String × OBSColumn)) : String :=
  buildCmdNT resolution tablename year output intable state
    (cts.map (fun p => (p.1, p.2.type)))

/-- The aggregate failure message (data.py:455-456):
Error with columns states: [...], resolution: ..., tablename: ... -/
def errMsg (failstates : List String) (resolution tablename : String) : String :=
  "Error with columns states: " ++ pyStrList failstates ++ ", resolution: " ++
    resolution ++ ", tablename: " ++ tablename

/-- Observable outcome of the populate_general partition loop: the partitions
attempted in order, the commands issued, the partitions whose rows remain
committed, and the partitions rolled back and recorded as failed. -/
structure GeneralRun where
  attempted : List String
  cmds : List String
  committed : List String
  failstates : List String
deriving DecidableEq

/-- populate_general together with its final raise (data.py:454-456). -/
structure GeneralOutcome where
  run : GeneralRun
  raised : Option String
deriving DecidableEq

/-- The partition loop of populate_general (data.py:412-453). The execution
context (session) is the external collaborator: ok names which partitions'
insert statements succeed; a failing partition is rolled back (its rows are
not committed) and recorded in failstates, and the loop continues. -/
def populateGeneralGo (resolution tablename : String) (year : Nat) (output : String)
    (cts : List (String × OBSColumn)) (ok : String → Bool) :
    List (String × String) → GeneralRun → GeneralRun
  | [], acc => acc
  | (state, intable) :: rest, acc =>
    let cmd := buildCmd resolution tablename year output intable state cts
    let acc' :=
      if ok state then
        { acc with
          attempted := acc.attempted ++ [state]
          cmds := acc.cmds ++ [cmd]
          committed := acc.committed ++ [state] }
      else
        { acc with
          attempted := acc.attempted ++ [state]
          cmds := acc.cmds ++ [cmd]
          failstates := acc.failstates ++ [state] }
    populateGeneralGo resolution tablename year output cts ok rest acc'

/-- XCP.populate_general (data.py:407-456): run every partition, then raise a
single aggregate error exactly when some partition failed. -/
def populate_general (resolution tablename : String) (year : Nat) (output : String)
    (cts : List (String × OBSColumn)) (inputs : List (String × String))
    (ok : String → Bool) : GeneralOutcome :=
  let r := populateGeneralGo resolution tablename year output cts ok inputs ⟨[], [], [], []⟩
  { run := r
    raised := if r.failstates = [] then none else some (errMsg r.failstates resolution tablename) }

/-! ## Table Materializer: derived interpolation
(XCP.populate_mb, data.py:381-405) -/

/-- The area-weighted interpolation expression for one non-geography column
(data.py:388): round(cast(float8 (ic * (ST_Area(mb.the_geom)/ST_Area(sa1geo.the_geom))) as numeric), 2). -/
def mbExpr (ic : String) : String :=
  "round(cast(float8 (" ++ ic ++
    " * (ST_Area(mb.the_geom)/ST_Area(sa1geo.the_geom))) as numeric), 2) as " ++ ic

/-- in_colnames of populate_mb (data.py:385-388): the geography id aliased from
the child geometry, then one rounding expression per non-geography column. -/
def mbInColnames (colkeys : List String) : List String :=
  "mb.geom_id as region_id" ::
    (colkeys.filter (fun ic => ic ≠ "region_id")).map (fun ic => mbExpr (pyLower ic))

/-- The single set-based insert statement of populate_mb (data.py:389-400),
with the triple-quoted literal's line breaks normalized to single spaces:
child geometry joined to the parent geometry on the child's parent_id, then to
the parent's materialized table on the same parent_id. -/
def mbInsertQuery (output input_data input_geo_mb input_geo_sa1 : String)
    (colkeys : List String) : String :=
  "INSERT INTO " ++ output ++ " (\"" ++ joinSep "\", \"" (colkeys.map pyLower) ++ "\") " ++
    "SELECT " ++ joinSep ", " (mbInColnames colkeys) ++ " " ++
    "FROM " ++ input_geo_mb ++ " mb " ++
    "INNER JOIN " ++ input_geo_sa1 ++ " sa1geo ON (mb.parent_id = sa1geo.geom_id)" ++ " " ++
    "INNER JOIN " ++ input_data ++ " sa1data ON (mb.parent_id = sa1data.region_id)"

/-- Observable outcome of one populate_mb execution: whether the inserted rows
remain committed, and what exception (if any) escapes to the caller. -/
structure MBRun where
  committed : Bool
  raised : Option String
deriving DecidableEq

/-- XCP.populate_mb control flow (data.py:401-405): execute the single insert;
on failure the session is rolled back and the exception is caught — nothing
is re-raised, so the method returns normally either way. -/
def populate_mb_exec (ok : Bool) : MBRun :=
  if ok then { committed := true, raised := none }
  else { committed := false, raised := none }

/-- Rational-number semantics of SQL round(x::numeric, 2): round to exactly
two decimal places. -/
def roundTo2 (x : ℚ) : ℚ :=
  ((round (100 * x) : ℤ) : ℚ) / 100

/-- Semantics of the interpolation expression built by populate_mb for one
column: child value = round(parent value * area ratio, 2). -/
def interpolate (v r : ℚ) : ℚ :=
  roundTo2 (v * r)

/-! ## Concrete fixtures used to evaluate the model on closed inputs -/

/-- A loader configuration for the BCP profile with given table and merged
prerequisite descriptors; tag registries are concrete total maps. -/
def testCfg (tbl : String) (reqs : List (String × Option String)) : LoaderCfg :=
  { profilechar := "B"
    tablename := tbl
    column_reqs := reqs
    source := "au-census"
    license := "au-datapacks-license"
    country := "section-au"
    unittags := fun u => "unit-" ++ u
    subsectiontags := fun s => "subsection-" ++ s }

/-- A metadata row with the given column id, denominator list, table id and
aggregate-override field. -/
def testRow (cid denoms tbl a : String) : MetaRow :=
  { line0 := cid
    col_id := cid
    col_name := "Name of " ++ cid
    denominators := denoms
    tablename := tbl
    col_unit := "people"
    col_subsections := "housing"
    agg := a
    tabledesc := "Table description" }

/-- Three partitions for a concrete populate_general run. -/
def c1inputs : List (String × String) :=
  [("NSW", "t_nsw"), ("Vic", "t_vic"), ("Qld", "t_qld")]

/-- An execution context in which exactly the Vic partition's statement fails. -/
def c1ok : String → Bool := fun s => s != "Vic"

/-- Loader configuration for a concrete B02 run with one prerequisite column. -/
def c4cfg : LoaderCfg := testCfg "B02" [("B1", some "B01_B1")]

/-- A B02 metadata row with a median aggregate override and one denominator. -/
def c4row : MetaRow := testRow "B2" "B1" "B02" "median"

/-- The column map produced by processing c4row from an empty map. -/
def c4cols : List (String × OBSColumn) :=
  dictInsert [] "B2" (mkColumn c4cfg c4row [(some (ColRef.req "B01_B1"), "universe")])

/-- Loader configuration whose one prerequisite lookup yields a null descriptor. -/
def c9cfg : LoaderCfg := testCfg "B02" [("B1", none)]

/-- A row whose single denominator points at the null-resolving prerequisite. -/
def c9row : MetaRow := testRow "B3" "B1" "B02" ""

/-- The column map produced by processing c9row from an empty map. -/
def c9cols : List (String × OBSColumn) :=
  dictInsert [] "B3" (mkColumn c9cfg c9row [(none, "denominator")])

/-- Loader configuration for a concrete B01 run with no prerequisites. -/
def c10cfg : LoaderCfg := testCfg "B01" []

/-- A B01 row with an empty denominator list. -/
def c10row : MetaRow := testRow "B1" "" "B01" ""

/-- The column map produced by processing c10row from an empty map. -/
def c10cols : List (String × OBSColumn) :=
  dictInsert [] "B1" (mkColumn c10cfg c10row [])

/-! ## Helper lemmas -/

theorem strData_append (s t : String) : (s ++ t).data = s.data ++ t.data := by
  rcases s with ⟨sd⟩
  rcases t with ⟨td⟩
  rfl

theorem mem_pyStrListInner_contains (s : String) :
    ∀ l : List String, s ∈ l → ∃ a b : List Char, (pyStrListInner l).data = a ++ s.data ++ b
  | [], h => absurd h (List.not_mem_nil s)
  | [x], h => by
    rcases List.mem_singleton.mp h with rfl
    exact ⟨"'".data, "'".data, by simp [pyStrListInner, strData_append]⟩
  | x :: y :: ys, h => by
    rcases List.mem_cons.mp h with rfl | hmem
    · exact ⟨"'".data, ("', " ++ pyStrListInner (y :: ys)).data,
        by simp [pyStrListInner, strData_append, List.append_assoc]⟩
    · obtain ⟨a, b, hd⟩ := mem_pyStrListInner_contains s (y :: ys) hmem
      exact ⟨("'" ++ x ++ "', ").data ++ a, b,
        by simp [pyStrListInner, strData_append, List.append_assoc, hd]⟩

theorem mem_dictInsert {K V : Type} [DecidableEq K] (d : List (K × V)) (k : K) (v : V)
    (p : K × V) (hp : p ∈ dictInsert d k v) : p ∈ d ∨ p = (k, v) := by
  unfold dictInsert at hp
  by_cases h : d.any (fun q => decide (q.1 = k)) = true
  · rw [if_pos h] at hp
    obtain ⟨q, hq, hfq⟩ := List.mem_map.mp hp
    by_cases hqk : q.1 = k
    · right
      rw [if_pos hqk] at hfq
      exact hfq.symm
    · left
      rw [if_neg hqk] at hfq
      exact hfq ▸ hq
  · rw [if_neg h] at hp
    rcases List.mem_append.mp hp with hp | hp
    · exact .inl hp
    · exact .inr (List.mem_singleton.mp hp)

theorem lookup_map_overwrite {K V : Type} [DecidableEq K] (k : K) (v : V) :
    ∀ d : List (K × V), d.any (fun p => decide (p.1 = k)) = true →
    lookupAssoc (d.map (fun p => if p.1 = k then (k, v) else p)) k = some v
  | [], h => by simp at h
  | p :: rest, h => by
    by_cases hp : p.1 = k
    · simp [lookupAssoc, hp]
    · have hrest : rest.any (fun p => decide (p.1 = k)) = true := by
        simpa [List.any_cons, hp] using h
      simp [lookupAssoc, hp, lookup_map_overwrite k v rest hrest]

theorem lookup_append_missing {K V : Type} [DecidableEq K] (k : K) (v : V) :
    ∀ d : List (K × V), (∀ p ∈ d, p.1 ≠ k) →
    lookupAssoc (d ++ [(k, v)]) k = some v
  | [], _ => by simp [lookupAssoc]
  | p :: rest, h => by
    have hp : p.1 ≠ k := h p (List.mem_cons_self p rest)
    have := lookup_append_missing k v rest (fun q hq => h q (List.mem_cons_of_mem p hq))
    simp [lookupAssoc, hp, this]

theorem lookup_dictInsert {K V : Type} [DecidableEq K] (d : List (K × V)) (k : K) (v : V) :
    lookupAssoc (dictInsert d k v) k = some v := by
  unfold dictInsert
  by_cases h : d.any (fun p => decide (p.1 = k)) = true
  · rw [if_pos h]
    exact lookup_map_overwrite k v d h
  · rw [if_neg h]
    refine lookup_append_missing k v d ?_
    intro p hp hk
    exact h (List.any_eq_true.mpr ⟨p, hp, by simp [hk]⟩)

theorem mem_popNone (d : List (Option ColRef × String)) (t : Option ColRef × String)
    (ht : t ∈ popNone d) : t ∈ d ∧ t.1 ≠ none := by
  have h := List.mem_filter.mp ht
  refine ⟨h.1, ?_⟩
  have := h.2
  simp only [Option.isSome_iff_exists] at this
  obtain ⟨x, hx⟩ := this
  simp [hx]

theorem filter_all_ok (ok : String → Bool) :
    ∀ l : List String, (∀ s ∈ l, ok s = true) →
    l.filter (fun s => ok s) = l ∧ l.filter (fun s => !ok s) = []
  | [], _ => by simp
  | a :: rest, h => by
    have ha : ok a = true := h a (List.mem_cons_self a rest)
    obtain ⟨h1, h2⟩ := filter_all_ok ok rest (fun s hs => h s (List.mem_cons_of_mem a hs))
    simp [List.filter_cons, ha, h1, h2]

theorem filter_one_fail (ok : String → Bool) :
    ∀ (l : List String) (f : String), f ∈ l → l.Nodup →
    (∀ s ∈ l, (ok s = false ↔ s = f)) →
    l.filter (fun s => !ok s) = [f] ∧ l.filter (fun s => ok s) = l.erase f
  | [], f, hmem, _, _ => absurd hmem (List.not_mem_nil f)
  | a :: rest, f, hmem, hnd, hone => by
    rw [List.nodup_cons] at hnd
    rcases List.mem_cons.mp hmem with rfl | hmemr
    · have hf : ok f = false := (hone f (List.mem_cons_self f rest)).mpr rfl
      have hrest : ∀ s ∈ rest, ok s = true := by
        intro s hs
        cases hcase : ok s with
        | true => rfl
        | false =>
          exact absurd (((hone s (List.mem_cons_of_mem f hs)).mp hcase) ▸ hs) hnd.1
      obtain ⟨h1, h2⟩ := filter_all_ok ok rest hrest
      constructor
      · simp [List.filter_cons, hf, h2]
      · simp [List.filter_cons, hf, h1, List.erase_cons_head]
    · have hanotf : a ≠ f := by
        intro hc
        exact hnd.1 (hc ▸ hmemr)
      have ha : ok a = true := by
        cases hcase : ok a with
        | true => rfl
        | false => exact absurd ((hone a (List.mem_cons_self a rest)).mp hcase) hanotf
      obtain ⟨h1, h2⟩ := filter_one_fail ok rest f hmemr hnd.2
        (fun s hs => hone s (List.mem_cons_of_mem a hs))
      constructor
      · simp [List.filter_cons, ha, h1]
      · simp [List.filter_cons, ha, h2, List.erase_cons, hanotf]

theorem resolveOne_snd (col_agg : Option String) (reqs : List (String × Option String))
    (cols : List (String × OBSColumn)) (acc acc' : List (Option ColRef × String))
    (d : String) (h : resolveOne col_agg reqs cols acc d = .ok acc')
    (hacc : ∀ t ∈ acc, t.2 = reltypeOf col_agg) :
    ∀ t ∈ acc', t.2 = reltypeOf col_agg := by
  unfold resolveOne at h
  by_cases hd : pyStrip d = ""
  · simp only [hd, if_true] at h
    cases h
    exact hacc
  · rw [if_neg hd] at h
    cases hr : lookupAssoc reqs (pyStrip d) with
    | some v =>
      rw [hr] at h
      cases h
      intro t ht
      rcases mem_dictInsert _ _ _ t ht with ht | ht
      · exact hacc t ht
      · rw [ht]
    | none =>
      rw [hr] at h
      cases hc : lookupAssoc cols (pyStrip d) with
      | some c =>
        rw [hc] at h
        cases h
        intro t ht
        rcases mem_dictInsert _ _ _ t ht with ht | ht
        · exact hacc t ht
        · rw [ht]
      | none =>
        rw [hc] at h
        cases h

theorem resolveDenoms_snd (col_agg : Option String) (reqs : List (String × Option String))
    (cols : List (String × OBSColumn)) :
    ∀ (ds : List String) (acc td : List (Option ColRef × String)),
    resolveDenoms col_agg reqs cols ds acc = .ok td →
    (∀ t ∈ acc, t.2 = reltypeOf col_agg) →
    ∀ t ∈ td, t.2 = reltypeOf col_agg
  | [], acc, td, h, hacc => by
    simp only [resolveDenoms] at h
    cases h
    exact hacc
  | d :: rest, acc, td, h, hacc => by
    simp only [resolveDenoms] at h
    cases heq : resolveOne col_agg reqs cols acc d with
    | error e => rw [heq] at h; cases h
    | ok acc' =>
      rw [heq] at h
      exact resolveDenoms_snd col_agg reqs cols rest acc' td h
        (resolveOne_snd col_agg reqs cols acc acc' d heq hacc)

theorem processRow_accepted (cfg : LoaderCfg) (cols : List (String × OBSColumn))
    (row : MetaRow) (cols' : List (String × OBSColumn))
    (h0 : pyStartsWith row.line0 cfg.profilechar = true)
    (h4 : pyStartsWith row.tablename cfg.tablename = true)
    (h : processRow cfg cols row = .ok cols') :
    ∃ td, resolveDenoms (colAggOf cfg.profilechar row) cfg.column_reqs cols
        (pySplitPipe row.denominators) [] = .ok td ∧
      cols' = dictInsert cols row.col_id (mkColumn cfg row td) := by
  unfold processRow at h
  rw [h0, h4] at h
  simp only [not_true_eq_false, if_false] at h
  cases heq : resolveDenoms (colAggOf cfg.profilechar row) cfg.column_reqs cols
      (pySplitPipe row.denominators) [] with
  | error e => rw [heq] at h; cases h
  | ok td =>
    rw [heq] at h
    cases h
    exact ⟨td, rfl, rfl⟩

theorem processRow_mem (cfg : LoaderCfg) (cols : List (String × OBSColumn))
    (row : MetaRow) (cols' : List (String × OBSColumn))
    (h : processRow cfg cols row = .ok cols') :
    ∀ p ∈ cols', p ∈ cols ∨ ∃ td, Prod.snd p = mkColumn cfg row td := by
  intro p hp
  cases h0 : pyStartsWith row.line0 cfg.profilechar with
  | false =>
    unfold processRow at h
    simp only [h0, Bool.false_eq_true, not_false_eq_true, if_true, Except.ok.injEq] at h
    subst h
    exact .inl hp
  | true =>
    cases h4 : pyStartsWith row.tablename cfg.tablename with
    | false =>
      unfold processRow at h
      simp only [h0, h4, not_true_eq_false, if_false, Bool.false_eq_true,
        not_false_eq_true, if_true, Except.ok.injEq] at h
      subst h
      exact .inl hp
    | true =>
      obtain ⟨td, _, hcols⟩ := processRow_accepted cfg cols row cols' h0 h4 h
      rw [hcols] at hp
      rcases mem_dictInsert _ _ _ p hp with hp | hp
      · exact .inl hp
      · exact .inr ⟨td, by rw [hp]⟩

theorem mem_columnsRunFrom (cfg : LoaderCfg) :
    ∀ (rows : List MetaRow) (cols₀ cols : List (String × OBSColumn)),
    columnsRunFrom cfg rows cols₀ = .ok cols →
    ∀ p ∈ cols, p ∈ cols₀ ∨ ∃ row td, Prod.snd p = mkColumn cfg row td
  | [], cols₀, cols, h, p, hp => by
    simp only [columnsRunFrom] at h
    cases h
    exact .inl hp
  | row :: rest, cols₀, cols, h, p, hp => by
    simp only [columnsRunFrom] at h
    cases heq : processRow cfg cols₀ row with
    | error e => rw [heq] at h; cases h
    | ok mid =>
      rw [heq] at h
      rcases mem_columnsRunFrom cfg rest mid cols h p hp with hmid | hb
      · rcases processRow_mem cfg cols₀ row mid heq p hmid with hp0 | ⟨td, htd⟩
        · exact .inl hp0
        · exact .inr ⟨row, td, htd⟩
      · exact .inr hb

theorem populateGeneralGo_spec (resolution tablename : String) (year : Nat)
    (output : String) (cts : List (String × OBSColumn)) (ok : String → Bool) :
    ∀ (inputs : List (String × String)) (acc : GeneralRun),
    populateGeneralGo resolution tablename year output cts ok inputs acc =
      { attempted := acc.attempted ++ inputs.map Prod.fst
        cmds := acc.cmds ++
          inputs.map (fun p => buildCmd resolution tablename year output p.2 p.1 cts)
        committed := acc.committed ++ (inputs.map Prod.fst).filter (fun s => ok s)
        failstates := acc.failstates ++ (inputs.map Prod.fst).filter (fun s => !ok s) }
  | [], acc => by
    rcases acc with ⟨a, c, m, fs⟩
    simp [populateGeneralGo]
  | (state, intable) :: rest, acc => by
    have ih := populateGeneralGo_spec resolution tablename year output cts ok rest
    cases hok : ok state with
    | true =>
      simp only [populateGeneralGo, hok, if_true, ih, List.map_cons, List.filter_cons,
        Bool.not_true]
      simp [List.append_assoc]
    | false =>
      simp only [populateGeneralGo, hok, Bool.false_eq_true, if_false, ih, List.map_cons,
        List.filter_cons, Bool.not_false]
      simp [List.append_assoc]

theorem roundTo2_idem (x : ℚ) : roundTo2 (roundTo2 x) = roundTo2 x := by
  unfold roundTo2
  rw [mul_comm (100 : ℚ), div_mul_cancel₀ _ (show (100 : ℚ) ≠ 0 by norm_num),
    round_intCast]

/-! ## Claim theorems -/

/-- C2: the spec claims that when the derived-interpolation insert of
populate_mb fails, no partial rows are committed and the error propagates
immediately to the caller. Evaluating the modelled control flow at the failing
input: the rollback half holds (nothing stays committed), but the exception is
caught and swallowed — populate_mb returns normally with no error raised, so
nothing propagates. The code contradicts the declared error-handling design. -/
theorem c2_mb_error_swallowed :
    populate_mb_exec false = { committed := false, raised := none } ∧
    populate_mb_exec true = { committed := true, raised := none } := by
  constructor <;> rfl

/-- C8: the trailing-separator substitution on the one median-rent measure is
applied exactly when the documented (resolution, state) condition holds, it is
applied before the table-prefix strip and the type cast, and for every other
(resolution, state) pair the column name passes through unmodified into the
cast expression. -/
theorem c8_trailing_separator_substitution (res state tbl col ty : String) :
    (medianRentCond res state col = false →
      inColnameEntry res state tbl col ty =
        "\"" ++ pyReplace col (tbl ++ "_") "" ++ "\"::" ++ ty) ∧
    (medianRentCond res state col = true →
      inColnameEntry res state tbl col ty =
        "\"" ++ pyReplace (pyReplace col "Median_rent_weekly_" "Median_rent_weekly")
          (tbl ++ "_") "" ++ "\"::" ++ ty) ∧
    (medianRentCond res state col = true →
      substMedianRent res state col =
        pyReplace col "Median_rent_weekly_" "Median_rent_weekly") ∧
    (medianRentCond res state col = false → substMedianRent res state col = col) := by
  refine ⟨?_, ?_, ?_, ?_⟩ <;> intro h <;> simp [inColnameEntry, substMedianRent, h]

/-- C8 witness: the documented pair (SA4, Vic) triggers the substitution, and
the resulting projection entry casts the substituted name. -/
theorem c8_witness :
    medianRentCond "SA4" "Vic" "B02_Median_rent_weekly_" = true ∧
    inColnameEntry "SA4" "Vic" "B02" "B02_Median_rent_weekly_" "Numeric" =
      "\"" ++ pyReplace (pyReplace "B02_Median_rent_weekly_" "Median_rent_weekly_"
        "Median_rent_weekly") ("B02" ++ "_") "" ++ "\"::" ++ "Numeric" :=
  ⟨by decide,
    (c8_trailing_separator_substitution "SA4" "Vic" "B02" "B02_Median_rent_weekly_"
      "Numeric").2.1 (by decide)⟩

/-- C5: a denominator token is resolved against the merged prerequisite
descriptors (column_reqs) first; only when absent there does resolution fall
back to descriptors from earlier rows of the same table scan; with no
median/average override the relation tag is denominator; and table B02
declares exactly its two prerequisite groups B01 and B17B. -/
theorem c5_denominator_resolution_order (col_agg : Option String)
    (reqs : List (String × Option String)) (cols : List (String × OBSColumn))
    (acc : List (Option ColRef × String)) (d : String) :
    (∀ v, pyStrip d ≠ "" → lookupAssoc reqs (pyStrip d) = some v →
      resolveOne col_agg reqs cols acc d =
        .ok (dictInsert acc (Option.map ColRef.req v) (reltypeOf col_agg))) ∧
    (∀ c, pyStrip d ≠ "" → lookupAssoc reqs (pyStrip d) = none →
      lookupAssoc cols (pyStrip d) = some c →
      resolveOne col_agg reqs cols acc d =
        .ok (dictInsert acc (some (ColRef.own (pyStrip d))) (reltypeOf col_agg))) ∧
    (col_agg ≠ some "median" → col_agg ≠ some "average" →
      reltypeOf col_agg = "denominator") ∧
    lookupAssoc (requiresTables "B02") "B01" = some "B01" ∧
    lookupAssoc (requiresTables "B02") "B17B" = some "B17B" := by
  refine ⟨?_, ?_, ?_, by decide, by decide⟩
  · intro v hne hreq
    unfold resolveOne
    rw [if_neg hne, hreq]
  · intro c hne hreq hcols
    unfold resolveOne
    rw [if_neg hne, hreq, hcols]
  · intro h1 h2
    unfold reltypeOf
    rw [if_neg]
    intro hcon
    exact hcon.elim h1 h2

/-- C5 witness: a B02 row's denominator token naming a prerequisite column id
resolves to the prerequisite descriptor with relation tag denominator. -/
theorem c5_witness :
    (pyStrip "B1" ≠ "" ∧
      lookupAssoc [("B1", some "B01_B1")] (pyStrip "B1") = some (some "B01_B1")) ∧
    resolveOne none [("B1", some "B01_B1")] [] [] "B1" =
      .ok [(some (ColRef.req "B01_B1"), "denominator")] := by
  refine ⟨⟨by decide, by decide⟩, ?_⟩
  have h := (c5_denominator_resolution_order none [("B1", some "B01_B1")] [] [] "B1").1
    (some "B01_B1") (by decide) (by decide)
  rw [h]
  rfl

/-- C3: the spec claims a denominator token absent both from the merged
prerequisite descriptors and from earlier rows of the same scan is dropped
silently. It is not: the fall-back lookup cols[denom_id] is a Python dict
subscript, which raises a KeyError for a missing key, aborting the scan. -/
theorem c3_counterexample :
    columnsRun (testCfg "B02" []) [testRow "B1" "X99" "B02" ""] =
      .error ("KeyError: " ++ "X99") := by
  rfl

/-- C3 amended: a denominator token absent from both the merged prerequisite
descriptors and the earlier-resolved rows raises a KeyError naming the token
(only a prerequisite lookup that yields a null descriptor is dropped
silently, which is the C9 invariant). -/
theorem c3_absent_token_raises (col_agg : Option String)
    (reqs : List (String × Option String)) (cols : List (String × OBSColumn))
    (acc : List (Option ColRef × String)) (d : String)
    (h1 : pyStrip d ≠ "") (h2 : lookupAssoc reqs (pyStrip d) = none)
    (h3 : lookupAssoc cols (pyStrip d) = none) :
    resolveOne col_agg reqs cols acc d = .error ("KeyError: " ++ pyStrip d) := by
  unfold resolveOne
  rw [if_neg h1, h2, h3]

/-- C3 witness: a concrete token found in neither map raises the KeyError. -/
theorem c3_witness :
    (pyStrip " X99 " ≠ "" ∧
      lookupAssoc ([] : List (String × Option String)) (pyStrip " X99 ") = none ∧
      lookupAssoc ([] : List (String × OBSColumn)) (pyStrip " X99 ") = none) ∧
    resolveOne none [] [] [] " X99 " = .error ("KeyError: " ++ pyStrip " X99 ") :=
  ⟨⟨by decide, by decide, by decide⟩,
    c3_absent_token_raises none [] [] [] " X99 " (by decide) (by decide) (by decide)⟩

/-- C4: for a metadata row whose aggregate-type override is median or average,
every denominator relation of the stored descriptor carries the relation tag
universe instead of denominator; and the override never touches
materialization logic: the insert command built by populate_general reads only
column names and declared types, so any two column-target lists agreeing on
names and types yield the identical command. -/
theorem c4_median_average_override (cfg : LoaderCfg) (cols cols' : List (String × OBSColumn))
    (row : MetaRow)
    (h0 : pyStartsWith row.line0 cfg.profilechar = true)
    (h4 : pyStartsWith row.tablename cfg.tablename = true)
    (hagg : colAggOf cfg.profilechar row = some "median" ∨
      colAggOf cfg.profilechar row = some "average")
    (h : processRow cfg cols row = .ok cols') :
    (∃ col, lookupAssoc cols' row.col_id = some col ∧
      ∀ t ∈ col.targets, t.2 = "universe") ∧
    (∀ (res : String) (year : Nat) (output intable state : String)
      (cts cts' : List (String × OBSColumn)),
      cts.map (fun p => (p.1, p.2.type)) = cts'.map (fun p => (p.1, p.2.type)) →
      buildCmd res cfg.tablename year output intable state cts =
        buildCmd res cfg.tablename year output intable state cts') := by
  constructor
  · obtain ⟨td, hres, hcols⟩ := processRow_accepted cfg cols row cols' h0 h4 h
    refine ⟨mkColumn cfg row td, ?_, ?_⟩
    · rw [hcols]
      exact lookup_dictInsert cols row.col_id (mkColumn cfg row td)
    · intro t ht
      have htd := mem_popNone td t ht
      have hall := resolveDenoms_snd (colAggOf cfg.profilechar row) cfg.column_reqs cols
        (pySplitPipe row.denominators) [] td hres
        (fun t ht' => absurd ht' (List.not_mem_nil t))
      have hrel := hall t htd.1
      rcases hagg with ha | ha <;> rw [ha] at hrel <;> exact hrel.trans (by decide)
  · intro res year output intable state cts cts' hmap
    unfold buildCmd
    rw [hmap]

/-- C4 witness: a concrete B02 row with the median override stores its
prerequisite denominator with relation tag universe. -/
theorem c4_witness :
    processRow c4cfg [] c4row = .ok c4cols ∧
    (∃ col, lookupAssoc c4cols c4row.col_id = some col ∧
      ∀ t ∈ col.targets, t.2 = "universe") := by
  have h : processRow c4cfg [] c4row = .ok c4cols := by rfl
  exact ⟨h, (c4_median_average_override c4cfg [] c4cols c4row (by decide) (by decide)
    (Or.inl (by decide)) h).1⟩

/-- C9: every descriptor stored by the column loader has a target set free of
null references: a prerequisite lookup that yields a null descriptor is
removed by the pop before the descriptor is stored, for every input row. -/
theorem c9_no_null_target_refs (cfg : LoaderCfg) (rows : List MetaRow)
    (cols : List (String × OBSColumn)) (h : columnsRun cfg rows = .ok cols) :
    ∀ p ∈ cols, ∀ t ∈ (Prod.snd p).targets, t.1 ≠ none := by
  intro p hp t ht
  rcases mem_columnsRunFrom cfg rows [] cols h p hp with h0 | ⟨row, td, hmk⟩
  · exact absurd h0 (List.not_mem_nil p)
  · rw [hmk] at ht
    exact (mem_popNone td t ht).2

/-- C9 witness: a run whose single denominator resolves to a null prerequisite
descriptor stores a descriptor with no null target reference. -/
theorem c9_witness :
    columnsRun c9cfg [c9row] = .ok c9cols ∧
    (∀ p ∈ c9cols, ∀ t ∈ (Prod.snd p).targets, t.1 ≠ none) := by
  have h : columnsRun c9cfg [c9row] = .ok c9cols := by rfl
  exact ⟨h, c9_no_null_target_refs c9cfg [c9row] c9cols h⟩

/-- C10: every descriptor built by the column loader has numeric type Numeric
and weight exactly 5 — in particular never weight 0, so the weight-0 hidden
column path is unreachable from this loader. -/
theorem c10_descriptor_numeric_weight5 (cfg : LoaderCfg) (rows : List MetaRow)
    (cols : List (String × OBSColumn)) (h : columnsRun cfg rows = .ok cols) :
    ∀ p ∈ cols, (Prod.snd p).type = "Numeric" ∧ (Prod.snd p).weight = 5 ∧
      (Prod.snd p).weight ≠ 0 := by
  intro p hp
  rcases mem_columnsRunFrom cfg rows [] cols h p hp with h0 | ⟨row, td, hmk⟩
  · exact absurd h0 (List.not_mem_nil p)
  · rw [hmk]
    refine ⟨rfl, rfl, ?_⟩
    show (5 : Nat) ≠ 0
    decide

/-- C10 witness: a concrete run stores only Numeric, weight-5 descriptors. -/
theorem c10_witness :
    columnsRun c10cfg [c10row] = .ok c10cols ∧
    (∀ p ∈ c10cols, (Prod.snd p).type = "Numeric" ∧ (Prod.snd p).weight = 5 ∧
      (Prod.snd p).weight ≠ 0) := by
  have h : columnsRun c10cfg [c10row] = .ok c10cols := by rfl
  exact ⟨h, c10_descriptor_numeric_weight5 c10cfg [c10row] c10cols h⟩

/-- C1: with exactly one failing partition, populate_general still attempts
every partition, the other partitions' rows remain committed, exactly one
aggregate error is raised after all partitions ran and it names the failed
partition; with no failing partition nothing is raised. -/
theorem c1_partition_fault_isolation (resolution tablename : String) (year : Nat)
    (output : String) (cts : List (String × OBSColumn))
    (inputs : List (String × String)) (ok : String → Bool) :
    (∀ f, f ∈ inputs.map Prod.fst → (inputs.map Prod.fst).Nodup →
      (∀ s ∈ inputs.map Prod.fst, (ok s = false ↔ s = f)) →
      (populate_general resolution tablename year output cts inputs ok).run.attempted =
        inputs.map Prod.fst ∧
      (populate_general resolution tablename year output cts inputs ok).run.committed =
        (inputs.map Prod.fst).erase f ∧
      (populate_general resolution tablename year output cts inputs ok).run.failstates =
        [f] ∧
      (populate_general resolution tablename year output cts inputs ok).raised =
        some (errMsg [f] resolution tablename)) ∧
    ((∀ s ∈ inputs.map Prod.fst, ok s = true) →
      (populate_general resolution tablename year output cts inputs ok).run.attempted =
        inputs.map Prod.fst ∧
      (populate_general resolution tablename year output cts inputs ok).run.committed =
        inputs.map Prod.fst ∧
      (populate_general resolution tablename year output cts inputs ok).raised = none) := by
  have hgo := populateGeneralGo_spec resolution tablename year output cts ok inputs
    ⟨[], [], [], []⟩
  constructor
  · intro f hmem hnd hone
    obtain ⟨hfail, hcomm⟩ := filter_one_fail ok (inputs.map Prod.fst) f hmem hnd hone
    refine ⟨?_, ?_, ?_, ?_⟩ <;> simp [populate_general, hgo, hfail, hcomm]
  · intro hall
    obtain ⟨hcomm, hfail⟩ := filter_all_ok ok (inputs.map Prod.fst) hall
    refine ⟨?_, ?_, ?_⟩ <;> simp [populate_general, hgo, hfail, hcomm]

/-- C1 witness: three partitions with exactly Vic failing — NSW and Qld stay
committed and one aggregate error names Vic. -/
theorem c1_witness :
    ("Vic" ∈ c1inputs.map Prod.fst ∧ (c1inputs.map Prod.fst).Nodup ∧
      (∀ s ∈ c1inputs.map Prod.fst, (c1ok s = false ↔ s = "Vic"))) ∧
    ((populate_general "SA1" "B01" 2011 "out_table" [] c1inputs c1ok).run.committed =
      ["NSW", "Qld"] ∧
      (populate_general "SA1" "B01" 2011 "out_table" [] c1inputs c1ok).raised =
        some (errMsg ["Vic"] "SA1" "B01")) := by
  have h := (c1_partition_fault_isolation "SA1" "B01" 2011 "out_table" [] c1inputs c1ok).1
    "Vic" (by decide) (by decide) (by decide)
  refine ⟨⟨by decide, by decide, by decide⟩, ?_, h.2.2.2⟩
  rw [h.2.1]
  decide

/-- C6: the spec claims every materialization failure message includes the
year. The aggregate message raised by populate_general is built from the
failed states, the resolution and the table name only — here, a concrete 2011
materialization of table B01 at resolution SA1 with NSW failing raises a
message that does not contain the year 2011 anywhere. -/
theorem c6_counterexample :
    (populate_general "SA1" "B01" 2011 "output_table" [] [("NSW", "t_nsw")]
      (fun _ => false)).raised = some (errMsg ["NSW"] "SA1" "B01") ∧
    containsSegL (errMsg ["NSW"] "SA1" "B01").data "2011".data = false := by
  exact ⟨rfl, rfl⟩

/-- C6 amended: the aggregate failure message contains the resolution, the
table id and every failed partition id — but not the year, which is not an
input of the message at all. -/
theorem c6_failure_message_contents (f : List String) (r t : String) :
    errMsg f r t = "Error with columns states: " ++ pyStrList f ++ ", resolution: "
      ++ r ++ ", tablename: " ++ t ∧
    strContains (errMsg f r t) r ∧
    strContains (errMsg f r t) t ∧
    (∀ s ∈ f, strContains (errMsg f r t) s) := by
  refine ⟨rfl, ?_, ?_, ?_⟩
  · exact ⟨("Error with columns states: " ++ pyStrList f ++ ", resolution: ").data,
      (", tablename: " ++ t).data, by simp [errMsg, strData_append, List.append_assoc]⟩
  · exact ⟨("Error with columns states: " ++ pyStrList f ++ ", resolution: " ++ r
      ++ ", tablename: ").data, [],
      by simp [errMsg, strData_append, List.append_assoc]⟩
  · intro s hs
    obtain ⟨a, b, hd⟩ := mem_pyStrListInner_contains s f hs
    exact ⟨"Error with columns states: ".data ++ "[".data ++ a,
      b ++ "]".data ++ ", resolution: ".data ++ r.data ++ ", tablename: ".data ++ t.data,
      by simp [errMsg, pyStrList, strData_append, List.append_assoc, hd]⟩

/-- C6 witness: a failed partition id appears in the concrete message. -/
theorem c6_witness :
    ("NSW" ∈ ["NSW", "Vic"]) ∧ strContains (errMsg ["NSW", "Vic"] "SA2" "B02") "NSW" :=
  ⟨by decide,
    (c6_failure_message_contents ["NSW", "Vic"] "SA2" "B02").2.2.2 "NSW" (by decide)⟩

/-- C7: every output column except the geography id gets the area-weighted
rounding expression in the populate_mb projection; the insert statement joins
the child geometry to the parent geometry through the child's parent_id and
then to the parent's materialized table; and the per-column computation
round(V * R, 2) is a deterministic function whose result is a fixed point of
the rounding (so repeated computation yields the identical value). -/
theorem c7_mb_interpolation (colkeys : List String) (ic : String)
    (outp din gmb gsa1 : String) (h1 : ic ∈ colkeys) (h2 : ic ≠ "region_id") :
    mbExpr (pyLower ic) ∈ mbInColnames colkeys ∧
    strContains (mbInsertQuery outp din gmb gsa1 colkeys)
      ("INNER JOIN " ++ gsa1 ++ " sa1geo ON (mb.parent_id = sa1geo.geom_id)") ∧
    strContains (mbInsertQuery outp din gmb gsa1 colkeys)
      ("INNER JOIN " ++ din ++ " sa1data ON (mb.parent_id = sa1data.region_id)") ∧
    (∀ v r : ℚ, interpolate v r = roundTo2 (v * r)) ∧
    (∀ v r : ℚ, roundTo2 (interpolate v r) = interpolate v r) := by
  refine ⟨?_, ?_, ?_, fun v r => rfl, fun v r => roundTo2_idem (v * r)⟩
  · unfold mbInColnames
    refine List.mem_cons_of_mem _ (List.mem_map.mpr ⟨ic, ?_, rfl⟩)
    exact List.mem_filter.mpr ⟨h1, by simp [h2]⟩
  · exact ⟨("INSERT INTO " ++ outp ++ " (\"" ++ joinSep "\", \"" (colkeys.map pyLower)
      ++ "\") " ++ "SELECT " ++ joinSep ", " (mbInColnames colkeys) ++ " " ++ "FROM "
      ++ gmb ++ " mb ").data,
      (" " ++ "INNER JOIN " ++ din
        ++ " sa1data ON (mb.parent_id = sa1data.region_id)").data,
      by simp [mbInsertQuery, strData_append, List.append_assoc]⟩
  · exact ⟨("INSERT INTO " ++ outp ++ " (\"" ++ joinSep "\", \"" (colkeys.map pyLower)
      ++ "\") " ++ "SELECT " ++ joinSep ", " (mbInColnames colkeys) ++ " " ++ "FROM "
      ++ gmb ++ " mb " ++ "INNER JOIN " ++ gsa1
      ++ " sa1geo ON (mb.parent_id = sa1geo.geom_id)" ++ " ").data, [],
      by simp [mbInsertQuery, strData_append, List.append_assoc]⟩

/-- C7 witness: a concrete non-geography column receives the rounding
expression and a concrete interpolation value is a rounding fixed point. -/
theorem c7_witness :
    ("B1_Tot" ∈ ["region_id", "B1_Tot"] ∧ "B1_Tot" ≠ "region_id") ∧
    (mbExpr (pyLower "B1_Tot") ∈ mbInColnames ["region_id", "B1_Tot"] ∧
      roundTo2 (interpolate 3 (1 / 2)) = interpolate 3 (1 / 2)) := by
  have h := c7_mb_interpolation ["region_id", "B1_Tot"] "B1_Tot" "out" "din" "gmb" "gsa1"
    (by decide) (by decide)
  exact ⟨⟨by decide, by decide⟩, h.1, h.2.2.2.2 3 (1 / 2)⟩

end AU
